import Mathlib

/-!
Verification of the Neuro-sama Surgery protocol client.

Shallow embedding of the two Python source files:
  * `NeurosamaSurgery.py` — the `NeuroWebSocketHandler` transport/protocol
    session and the `NeurosamaSurgeryWidget` dispatch glue;
  * `Procedures/VentriculostomySim/VentriculostomySim.py` — the phase/action
    state machine and the long-running movement operations.

Machine reals (Python floats) are modelled as rationals (`ℚ`).  The scene
geometry that the spec places outside the core (VTK polydata, curve
resampling, quaternion orientation) is real-valued; wherever the program
merely *reads* a value that geometry produces (a curve's world length, the
collision-detection verdict, a sampled curve position) the embedding takes
the value from an explicit scene field or argument, while every branch and
assignment of the embedded control flow follows the source.  Euclidean
distances are compared through their squares, which is order-faithful for
nonnegative quantities.
-/

namespace NeuroSurgery

/-- Three-vector of rationals: the translation column of a VTK 4×4 transform. -/
structure Vec3 where
  x : ℚ
  y : ℚ
  z : ℚ
deriving DecidableEq, Repr

def Vec3.add (a b : Vec3) : Vec3 := ⟨a.x + b.x, a.y + b.y, a.z + b.z⟩

def Vec3.smul (a : Vec3) (c : ℚ) : Vec3 := ⟨a.x * c, a.y * c, a.z * c⟩

def Vec3.neg (a : Vec3) : Vec3 := ⟨-a.x, -a.y, -a.z⟩

/-- Squared Euclidean distance (the source compares `(Σ dᵢ²) ** 0.5` values;
square roots are order-isomorphic to squares on nonnegative inputs). -/
def sqDist (a b : Vec3) : ℚ :=
  (a.x - b.x) ^ 2 + (a.y - b.y) ^ 2 + (a.z - b.z) ^ 2

/-- A JSON value as far as the handlers inspect one: numbers, strings,
booleans, null.  (Python `float()` also accepts numeric strings; no claim
exercises that case, so strings are modelled as non-convertible.) -/
inductive JVal where
  | num (q : ℚ)
  | str (s : String)
  | boolv (b : Bool)
  | jnull
deriving DecidableEq, Repr

/-- Embeds `float(v)` as applied by the catheter handlers: `none` models the caught
`ValueError`/`TypeError`.  `float(True) = 1.0` in Python. -/
def floatOfJVal : JVal → Option ℚ
  | .num q => some q
  | .boolv b => some (if b then 1 else 0)
  | .str _ => none
  | .jnull => none

/-- Python `==` between a fiducial label (a `str`) and the extracted
`location` value: only string-to-string comparison can succeed. -/
def jvalEqStr (v : JVal) (s : String) : Bool :=
  match v with
  | .str t => t == s
  | _ => false

/-- The raw `actionParams` string as the handlers see it after the
`isinstance`/`json.loads` preamble: a nonempty string that fails to parse,
the empty string, a JSON object, or a JSON non-object. -/
inductive ActionParams where
  | malformedStr
  | emptyStr
  | obj (fields : List (String × JVal))
  | nonObj (v : JVal)
deriving DecidableEq, Repr

/-- Embeds `dict[key]` lookup (first binding; Python dict keys are unique). -/
def lookupField (fields : List (String × JVal)) (key : String) : Option JVal :=
  (fields.find? (fun kv => kv.1 == key)).map (·.2)

/-- The slice of an ActionSpec the claims inspect: its name and the
`minimum`/`maximum` advertised for the `distance` property (descriptions and
the rest of the JSON schema carry no claim-relevant content). -/
structure ActionSpec where
  name : String
  schemaMin : Option ℚ
  schemaMax : Option ℚ
deriving DecidableEq, Repr

/-! ## NeuroWebSocketHandler (NeurosamaSurgery.py) -/

/-- Transport state relevant to `_sendMessage`: `connected` is
`isConnected()` (`self.ws is not None and self.isRunning`), `sendRaises`
models `self.ws.send` raising an exception. -/
structure WSState where
  connected : Bool
  sendRaises : Bool
deriving DecidableEq, Repr

/-- The `data` payload of each outbound command (always truthy when present,
so `_sendMessage`'s `if data:` attaches it exactly when supplied). -/
inductive DataPayload where
  | contextD (message : String) (silent : Bool)
  | actionResultD (id : String) (success : Bool) (message : String)
  | registerD (actions : List ActionSpec)
  | unregisterD (names : List String)
  | forceD (query : String) (names : List String) (ephemeral : Bool)
      (priority : String) (state : Option String)
deriving DecidableEq, Repr

/-- Observable outcome of one `_sendMessage` call: the successful transport
writes and the `messageSent` signal emissions, each carrying
`(command, data)`. -/
structure SendOutcome where
  wireWrites : List (String × Option DataPayload)
  emitted : List (String × Option DataPayload)
deriving DecidableEq, Repr

/-- Embeds `NeuroWebSocketHandler._sendMessage`: returns early when not connected;
on a send exception the `except` swallows it before the `messageSent.emit`,
so the signal fires only after a successful write. -/
def sendMessageRaw (ws : WSState) (command : String) (d : Option DataPayload) :
    SendOutcome :=
  if !ws.connected then ⟨[], []⟩
  else if ws.sendRaises then ⟨[], []⟩
  else ⟨[(command, d)], [(command, d)]⟩

/-- Embeds `sendStartup`. -/
def sendStartup (ws : WSState) : SendOutcome :=
  sendMessageRaw ws "startup" none

/-- Embeds `sendContext`. -/
def sendContext (ws : WSState) (message : String) (silent : Bool) : SendOutcome :=
  sendMessageRaw ws "context" (some (.contextD message silent))

/-- Embeds `sendActionResult`. -/
def sendActionResult (ws : WSState) (actionId : String) (success : Bool)
    (message : String) : SendOutcome :=
  sendMessageRaw ws "action/result" (some (.actionResultD actionId success message))

/-- Embeds `registerActions` (handler level). -/
def wsRegisterActions (ws : WSState) (actions : List ActionSpec) : SendOutcome :=
  sendMessageRaw ws "actions/register" (some (.registerD actions))

/-- Embeds `unregisterActions` (handler level). -/
def wsUnregisterActions (ws : WSState) (actionNames : List String) : SendOutcome :=
  sendMessageRaw ws "actions/unregister" (some (.unregisterD actionNames))

/-- Embeds `forceActions`; `if state:` keeps the `state` key only for a truthy
(nonempty) string. -/
def forceActions (ws : WSState) (query : String) (actionNames : List String)
    (state : Option String) (ephemeralContext : Bool) (priority : String) :
    SendOutcome :=
  let stateField : Option String :=
    match state with
    | some s => if s = "" then none else some s
    | none => none
  sendMessageRaw ws "actions/force"
    (some (.forceD query actionNames ephemeralContext priority stateField))

/-! ## VentriculostomySim: phases and action specs -/

/-- One entry of `self.phases` (key, display name, description, declared
action names). -/
structure Phase where
  key : String
  displayName : String
  description : String
  actions : List String
deriving DecidableEq, Repr

/-- Embeds `self.phases` from `VentriculostomySim.__init__`, in insertion order
(the commented-out `preparation`/`completion` entries are absent at run
time). -/
def phasesList : List Phase :=
  [ { key := "startup", displayName := "Startup",
      description := "The procedure has not yet started", actions := [] },
    { key := "cranial_access", displayName := "Cranial Access",
      description := "We need to drill a burr hole for catheter access into the brain",
      actions := ["move_to_drill_site", "drill_hole"] },
    { key := "catheter_placement", displayName := "Catheter Placement",
      description := "Inserting the catheter",
      actions := ["insert_catheter", "verify_placement", "secure_catheter"] } ]

/-- Embeds `list(self.phases.keys())`. -/
def phaseKeys : List String := phasesList.map (·.key)

/-- Embeds `self.phases[key]` as an optional lookup. -/
def lookupPhase (k : String) : Option Phase :=
  phasesList.find? (fun p => p.key == k)

/-- Embeds `self.phases[key]["actions"]` (total with default `[]`; every call site
passes a key present in `phasesList`). -/
def declaredActions (k : String) : List String :=
  ((lookupPhase k).map (·.actions)).getD []

/-- The ActionSpec list `registerActions` hardcodes per phase (names plus
the advertised `distance` schema bounds; other schema content elided). -/
def registerActionSpecs (phase : String) : List ActionSpec :=
  if phase == "cranial_access" then
    [ { name := "move_to_drill_site", schemaMin := none, schemaMax := none },
      { name := "drill_hole", schemaMin := none, schemaMax := none } ]
  else if phase == "catheter_placement" then
    [ { name := "insert_catheter", schemaMin := some 1, schemaMax := some 100 },
      { name := "retract_catheter", schemaMin := some 1, schemaMax := some 100 },
      { name := "start_draining", schemaMin := none, schemaMax := none } ]
  else []

/-- Outbound calls the procedure makes on its `websocketHandler` (the
context reports are identified by their branch; the numeric distance Python
interpolates into two of the texts is a real-valued Euclidean norm that no
claim reads). -/
inductive CtxReport where
  | drillSiteSafe
  | drillSiteBlocked
  | catheterAtTarget
  | catheterNeedFurther
  | catheterOvershot
  | catheterError
deriving DecidableEq, Repr

inductive OutMsg where
  | register (actions : List ActionSpec)
  | unregister (names : List String)
  | context (report : CtxReport) (silent : Bool)
deriving DecidableEq, Repr

/-- Cumulative effect of one register/unregister message on the remote
peer's action set (per the Neuro API: registering a present name replaces
it, unregistering an absent name is a no-op). -/
def applyOutMsg (s : List String) : OutMsg → List String
  | .register as =>
      let ns := as.map (·.name)
      s.filter (fun n => !(ns.contains n)) ++ ns
  | .unregister ns => s.filter (fun n => !(ns.contains n))
  | .context _ _ => s

/-- The remote peer's registered-action set after a message trace, starting
from the empty set. -/
def registeredAfter (log : List OutMsg) : List String :=
  log.foldl applyOutMsg []

/-- The curve node `generate_safety_path` returns, abstracted by the world
length the scene engine reports for it (`GetCurveLengthWorld`); the
waypoint geometry is real-valued and outside the claims. -/
structure PathCurveData where
  worldLength : ℚ
deriving DecidableEq, Repr

/-- State of one `VentriculostomySim` instance together with the scene
values its handlers read and write.  Fields marked "scene input" stand for
values the out-of-core geometry engine supplies. -/
structure SimState where
  moving : Bool
  currentPhase : String
  selectedVentriclePosition : Option Vec3
  -- path-movement operation fields
  movementTimerRunning : Bool
  movementStartTime : ℚ
  movementTotalDistance : ℚ
  movementSpeed : ℚ
  currentPathCurve : Option PathCurveData
  orientationsCaptured : Bool
  -- catheter-movement operation fields
  catheterTimerRunning : Bool
  catheterStartTime : ℚ
  catheterTotalDistance : ℚ
  catheterSpeed : ℚ
  catheterDirection : Vec3
  catheterStartPosition : Vec3
  catheterMovementType : String
  -- scene nodes: presence flags and the transform translations
  toolNodePresent : Bool
  intendedNodePresent : Bool
  safetyZoneNodePresent : Bool
  skullNodePresent : Bool
  toolPosition : Vec3
  toolZAxis : Vec3
  intendedPosition : Vec3
  drillSites : List (String × Vec3)
  ventricleFiducials : List Vec3
  scenePathLength : ℚ            -- scene input: generated curve's world length
  sceneTrajectoryIntersects : Bool  -- scene input: collision-filter verdict
  -- display state touched by phase changes and handlers
  greenSliceVisible : Bool
  yellowSliceVisible : Bool
  trajectoryVisible : Bool
  trajectoryColorRed : Bool
  skullOpacity : ℚ
  brainVolumeVisible : Bool
  drillModelVisible : Bool
  catheterModelVisible : Bool
  targetedPointVisible : Bool
  phaseLabelText : String
  phaseDescriptionText : String
  -- trace of calls made on the websocket handler
  sentLog : List OutMsg
deriving DecidableEq, Repr

/-- Embeds `unregisterActions` (procedure level): sends the *declared* action names
of the current phase. -/
def unregisterActions (st : SimState) : SimState :=
  { st with sentLog := st.sentLog ++ [.unregister (declaredActions st.currentPhase)] }

/-- Embeds `registerActions` (procedure level): sends the hardcoded per-phase spec
list for the current phase. -/
def registerActions (st : SimState) : SimState :=
  { st with sentLog := st.sentLog ++ [.register (registerActionSpecs st.currentPhase)] }

/-- Embeds `setPhase`: on a known key, unregister the old phase's declared actions,
mutate `currentPhase`, apply the phase-entry scene changes, register the new
phase's actions and refresh the labels; on an unknown key only print. -/
def setPhase (st : SimState) (phaseKey : String) : SimState :=
  if phaseKeys.contains phaseKey then
    let st1 := unregisterActions st
    let st2 := { st1 with currentPhase := phaseKey }
    let st3 :=
      if phaseKey == "cranial_access" then
        { st2 with greenSliceVisible := true, yellowSliceVisible := false }
      else if phaseKey == "catheter_placement" then
        { st2 with greenSliceVisible := false, yellowSliceVisible := true,
                   trajectoryVisible := false }
      else st2
    let st4 := registerActions st3
    { st4 with
      phaseLabelText := ((lookupPhase phaseKey).map (·.displayName)).getD "",
      phaseDescriptionText := ((lookupPhase phaseKey).map (·.description)).getD "" }
  else st

/-- Embeds `getNextPhase`: the key after the current one in `phaseKeys`; `none` at
the last phase and when the current key is missing (`ValueError` branch);
a falsy current phase yields the first key. -/
def getNextPhase (st : SimState) : Option String :=
  if st.currentPhase = "" then phaseKeys.head?
  else
    match phaseKeys.findIdx? (fun k => k == st.currentPhase) with
    | some i => if i + 1 < phaseKeys.length then phaseKeys.get? (i + 1) else none
    | none => none

/-- Embeds `onNextPhase`: advance when a next phase exists. -/
def onNextPhase (st : SimState) : SimState :=
  match getNextPhase st with
  | some k => setPhase st k
  | none => st

/-! ## VentriculostomySim: action handlers and movement operations -/

/-- A handler's outcome: the Python `(success, message)` tuple, or an
exception escaping the handler. -/
inductive HandlerOut where
  | ok (success : Bool) (message : String)
  | exn (e : String)
deriving DecidableEq, Repr

def busyMessage : String :=
  "We are currently moving the tool. Please wait until we finish moving before performing any actions."

/-- Embeds `find_closest_ventricle_fiducial`, position component: strict-`<`
minimisation starting from `inf`, first minimum kept (comparisons taken on
squared distances). -/
def findClosestVentricle (fs : List Vec3) (p : Vec3) : Option Vec3 :=
  fs.foldl
    (fun acc c =>
      match acc with
      | none => some c
      | some b => if sqDist c p < sqDist b p then some c else some b)
    none

/-- Embeds `generate_safety_path`: `None` exactly when a required node is missing;
otherwise a curve whose world length the scene engine reports. -/
def generateSafetyPath (st : SimState) : Option PathCurveData :=
  if st.toolNodePresent && st.intendedNodePresent && st.safetyZoneNodePresent
      && st.skullNodePresent then
    some ⟨st.scenePathLength⟩
  else none

/-- Embeds `start_path_movement`: record the curve, raise `moving`, capture the
start time and (when both transform nodes exist) the orientation pair, and
start the 50 ms timer. -/
def startPathMovement (st : SimState) (pathCurve : PathCurveData) (now : ℚ) :
    SimState :=
  { st with
    currentPathCurve := some pathCurve,
    moving := true,
    movementTotalDistance := pathCurve.worldLength,
    orientationsCaptured := st.toolNodePresent && st.intendedNodePresent,
    movementStartTime := now,
    movementTimerRunning := true }

/-- Embeds `check_drill_site`: drop the skull opacity, run the collision filter
(scene input), show and colour the trajectory, send one context report. -/
def checkDrillSite (st : SimState) : SimState :=
  let st1 := { st with skullOpacity := 1/10 }
  let st2 := { st1 with trajectoryVisible := true,
                        trajectoryColorRed := st1.sceneTrajectoryIntersects }
  let report :=
    if st2.sceneTrajectoryIntersects then CtxReport.drillSiteBlocked
    else CtxReport.drillSiteSafe
  { st2 with sentLog := st2.sentLog ++ [.context report false] }

/-- Embeds `complete_path_movement`: stop the timer, snap the tool transform to the
intended transform when both nodes exist, clear `moving` and the curve, then
run the drill-site check (which sends the context report). -/
def completePathMovement (st : SimState) : SimState :=
  let st1 := { st with movementTimerRunning := false }
  let st2 :=
    if st1.toolNodePresent && st1.intendedNodePresent then
      { st1 with toolPosition := st1.intendedPosition }
    else st1
  let st3 := { st2 with moving := false, currentPathCurve := none }
  checkDrillSite st3

/-- Embeds `update_path_movement` at wall-clock `now`; `samplePos` is the position
`GetPositionAlongCurveWorld` returns for the travelled distance (real-valued
curve resampling, a scene input).  Note the early `return` after completion:
unlike the catheter tick, the snapped position is not overwritten. -/
def updatePathMovement (st : SimState) (now : ℚ) (samplePos : Vec3) : SimState :=
  if !st.moving || st.currentPathCurve.isNone then st
  else
    let distanceTraveled := (now - st.movementStartTime) * st.movementSpeed
    if distanceTraveled ≥ st.movementTotalDistance then completePathMovement st
    else if st.toolNodePresent && st.orientationsCaptured then
      { st with toolPosition := samplePos }
    else st

/-- Embeds `cranial_move_to_drill_site`.  The orientation matrix written towards
the closest ventricle and the rebuilt trajectory cylinder are real-valued
scene geometry; the embedded flow keeps every branch, the translation
updates, and the messages.  Missing `location` on a parsed dict is the
uncaught `KeyError` of `actionParams["location"]`. -/
def cranialMoveToDrillSite (st : SimState) (actionParams : ActionParams)
    (now : ℚ) : SimState × HandlerOut :=
  match actionParams with
  | .malformedStr =>
      (st, .ok false "Doctor, I couldn't understand the location parameters")
  | p =>
    let locVal : Except String JVal :=
      match p with
      | .obj fields =>
          match lookupField fields "location" with
          | some v => .ok v
          | none => .error "KeyError"
      | _ => .ok (.str "")
    match locVal with
    | .error e => (st, .exn e)
    | .ok v =>
      match st.drillSites.find? (fun site => jvalEqStr v site.1) with
      | none => (st, .ok false "Doctor, I don't know what that drill site location is")
      | some site =>
        let st1 := { st with intendedPosition := site.2 }
        match findClosestVentricle st1.ventricleFiducials site.2 with
        | none =>
            (st1, .ok false "Doctor, I can't find any ventricle fiducials to aim towards")
        | some vp =>
          let st2 := { st1 with selectedVentriclePosition := some vp,
                                trajectoryVisible := false }
          match generateSafetyPath st2 with
          | none =>
              (st2, .ok false "Doctor, I couldn't generate a safe path to that location")
          | some pathCurve =>
            let st3 := { st2 with skullOpacity := 1 }
            (startPathMovement st3 pathCurve now,
             .ok true "We are moving towards your chosen potential drill site. You will need to wait until we reach it.")

/-- Embeds `cranial_make_incision`. -/
def cranialMakeIncision (st : SimState) : SimState × HandlerOut :=
  (st, .ok true "Doctor, we have made an incision")

/-- Embeds `cranial_drill_hole`: hide/show the relevant models, then advance the
phase. -/
def cranialDrillHole (st : SimState) : SimState × HandlerOut :=
  let st1 := { st with brainVolumeVisible := false, drillModelVisible := false,
                       catheterModelVisible := true, targetedPointVisible := false }
  (onNextPhase st1,
   .ok true "Doctor, we have successfully drilled the burr hole and are now ready to insert the catheter")

/-- Python `f"{q:.1f}"` on the requested distance, modelled with round half
up on rationals (no claim reads the digits). -/
def fmt1 (q : ℚ) : String :=
  let n : ℤ := ⌊q * 10 + 1/2⌋
  let sign := if n < 0 then "-" else ""
  sign ++ toString (n.natAbs / 10) ++ "." ++ toString (n.natAbs % 10)

/-- Embeds `start_catheter_movement`: no-op when the tool transform node is
missing; otherwise take the tool's Z axis (negated for `"retract"`), record
the start position, set `catheterTotalDistance := abs(distance)`, raise
`moving`, capture the start time and start the 50 ms timer. -/
def startCatheterMovement (st : SimState) (distance : ℚ) (movementType : String)
    (now : ℚ) : SimState :=
  if !st.toolNodePresent then st
  else
    let zAxisDirection := st.toolZAxis
    let direction :=
      if movementType == "retract" then Vec3.neg zAxisDirection else zAxisDirection
    { st with
      catheterStartPosition := st.toolPosition,
      catheterDirection := direction,
      catheterTotalDistance := |distance|,
      catheterMovementType := movementType,
      moving := true,
      catheterStartTime := now,
      catheterTimerRunning := true }

/-- Shared parameter preamble of the two catheter handlers: JSON parse,
`actionParams["distance"]` (uncaught `KeyError` when a parsed dict lacks
it), then `float(...)` with `ValueError`/`TypeError` caught. -/
def parseCatheterDistance (p : ActionParams) : Except String (Option ℚ) :=
  match p with
  | .obj fields =>
      match lookupField fields "distance" with
      | some v => .ok (floatOfJVal v)
      | none => .error "KeyError"
  | _ => .ok none

/-- Embeds `catheter_insert_catheter`. -/
def catheterInsertCatheter (st : SimState) (actionParams : ActionParams)
    (now : ℚ) : SimState × HandlerOut :=
  match actionParams with
  | .malformedStr =>
      (st, .ok false "Doctor, I couldn't understand the distance parameters")
  | p =>
    match parseCatheterDistance p with
    | .error e => (st, .exn e)
    | .ok none =>
        (st, .ok false "Doctor, I couldn't understand the distance parameters")
    | .ok (some requestedDistance) =>
        (startCatheterMovement st requestedDistance "insert" now,
         .ok true ("Doctor, we are inserting the catheter by "
                    ++ fmt1 requestedDistance ++ "mm"))

/-- Embeds `catheter_retract_catheter`. -/
def catheterRetractCatheter (st : SimState) (actionParams : ActionParams)
    (now : ℚ) : SimState × HandlerOut :=
  match actionParams with
  | .malformedStr =>
      (st, .ok false "Doctor, I couldn't understand the distance parameters")
  | p =>
    match parseCatheterDistance p with
    | .error e => (st, .exn e)
    | .ok none =>
        (st, .ok false "Doctor, I couldn't understand the distance parameters")
    | .ok (some requestedDistance) =>
        (startCatheterMovement st requestedDistance "retract" now,
         .ok true ("Doctor, we are retracting the catheter by "
                    ++ fmt1 requestedDistance ++ "mm"))

/-- Embeds `catheter_drain` (`start_draining`). -/
def catheterDrain (st : SimState) : SimState × HandlerOut :=
  (st, .ok true "Doctor, we have started draining the ventricles")

inductive CathStatus where
  | atTarget
  | needFurther
  | overshot
  | err
deriving DecidableEq, Repr

/-- Embeds `catheter_check_position`: classify the tool position against the
selected ventricle, comparing Euclidean distances (embedded as their
squares; 2.5 mm tolerance becomes 25/4).  The accompanying mm figure feeds
only the report text. -/
def catheterCheckPosition (st : SimState) : CathStatus :=
  if !(st.toolNodePresent && st.intendedNodePresent) then .err
  else
    match st.selectedVentriclePosition with
    | none => .err
    | some target =>
      let catheterPosition := st.toolPosition
      let startPosition := st.intendedPosition
      let distanceToTargetSq := sqDist catheterPosition target
      let totalDistanceNeededSq := sqDist target startPosition
      let distanceTraveledSq := sqDist catheterPosition startPosition
      if distanceToTargetSq ≤ (5/2 : ℚ) ^ 2 then .atTarget
      else if distanceTraveledSq < totalDistanceNeededSq then .needFurther
      else .overshot

/-- Embeds `complete_catheter_movement`: stop the timer, snap the tool to
`start + direction · totalDistance` when the node exists, clear `moving`,
classify the position and send one context report. -/
def completeCatheterMovement (st : SimState) : SimState :=
  let st1 := { st with catheterTimerRunning := false }
  let st2 :=
    if st1.toolNodePresent then
      { st1 with toolPosition :=
          (Vec3.add st1.catheterStartPosition
            (Vec3.smul st1.catheterDirection st1.catheterTotalDistance)) }
    else st1
  let st3 := { st2 with moving := false }
  let report :=
    match catheterCheckPosition st3 with
    | .atTarget => CtxReport.catheterAtTarget
    | .needFurther => CtxReport.catheterNeedFurther
    | .overshot => CtxReport.catheterOvershot
    | .err => CtxReport.catheterError
  { st3 with sentLog := st3.sentLog ++ [.context report false] }

/-- Embeds `update_catheter_movement` at wall-clock `now`.  The source calls
`complete_catheter_movement` when the travelled distance reaches the total
but, unlike `update_path_movement`, does *not* return: execution falls
through and rewrites the tool position from the raw travelled distance. -/
def updateCatheterMovement (st : SimState) (now : ℚ) : SimState :=
  if !st.moving then st
  else
    let distanceTraveled := (now - st.catheterStartTime) * st.catheterSpeed
    let st1 :=
      if distanceTraveled ≥ st.catheterTotalDistance then
        completeCatheterMovement st
      else st
    let currentPosition :=
      Vec3.add st1.catheterStartPosition
        (Vec3.smul st1.catheterDirection distanceTraveled)
    if st1.toolNodePresent then { st1 with toolPosition := currentPosition }
    else st1

/-- Embeds `VentriculostomySim.onActionReceived`: busy gate first, then dispatch on
the current phase and action name; any other phase falls through to
`(False, "Error")`. -/
def simOnActionReceived (st : SimState) (actionName : String)
    (actionParams : ActionParams) (now : ℚ) : SimState × HandlerOut :=
  if st.moving then (st, .ok false busyMessage)
  else if st.currentPhase == "cranial_access" then
    if actionName == "move_to_drill_site" then
      cranialMoveToDrillSite st actionParams now
    else if actionName == "make_incision" then cranialMakeIncision st
    else if actionName == "drill_hole" then cranialDrillHole st
    else
      (st, .ok false ("Unknown action. " ++ actionName
                       ++ " is not an available action that can be performed."))
  else if st.currentPhase == "catheter_placement" then
    if actionName == "insert_catheter" then
      catheterInsertCatheter st actionParams now
    else if actionName == "retract_catheter" then
      catheterRetractCatheter st actionParams now
    else if actionName == "start_draining" then catheterDrain st
    else
      (st, .ok false ("Unknown action. " ++ actionName
                       ++ " is not an available action that can be performed."))
  else (st, .ok false "Error")

/-! ## NeurosamaSurgeryWidget.onActionReceived -/

/-- The widget's `onActionReceived`: with a loaded procedure instance the
result tuple is forwarded once through `sendActionResult` under the same id
(handler exceptions propagate); with no instance the branch prints and then
reads the never-assigned locals `actionResult`/`message`, raising
`UnboundLocalError` before any result is sent. -/
def widgetOnActionReceived (inst : Option SimState) (ws : WSState)
    (actionId actionName : String) (actionParams : ActionParams) (now : ℚ) :
    Except String (SimState × SendOutcome) :=
  match inst with
  | some sim =>
      match simOnActionReceived sim actionName actionParams now with
      | (sim2, .ok success message) =>
          .ok (sim2, sendActionResult ws actionId success message)
      | (_, .exn e) => .error e
  | none => .error "UnboundLocalError"

/-! ## Concrete states for witnesses and counterexamples -/

/-- A freshly constructed `VentriculostomySim` (`__init__` values) placed in
a small concrete scene: one drill site `"bregma"` at (1,2,3), one ventricle
fiducial at (0,0,10), all scene nodes present. -/
def demoState : SimState :=
  { moving := false
    currentPhase := "startup"
    selectedVentriclePosition := none
    movementTimerRunning := false
    movementStartTime := 0
    movementTotalDistance := 0
    movementSpeed := 20
    currentPathCurve := none
    orientationsCaptured := false
    catheterTimerRunning := false
    catheterStartTime := 0
    catheterTotalDistance := 0
    catheterSpeed := 10
    catheterDirection := ⟨0, 0, 0⟩
    catheterStartPosition := ⟨0, 0, 0⟩
    catheterMovementType := ""
    toolNodePresent := true
    intendedNodePresent := true
    safetyZoneNodePresent := true
    skullNodePresent := true
    toolPosition := ⟨0, 0, 0⟩
    toolZAxis := ⟨0, 0, 1⟩
    intendedPosition := ⟨0, 0, 0⟩
    drillSites := [("bregma", ⟨1, 2, 3⟩)]
    ventricleFiducials := [⟨0, 0, 10⟩]
    scenePathLength := 10
    sceneTrajectoryIntersects := false
    greenSliceVisible := false
    yellowSliceVisible := false
    trajectoryVisible := true
    trajectoryColorRed := false
    skullOpacity := 1/2
    brainVolumeVisible := true
    drillModelVisible := true
    catheterModelVisible := false
    targetedPointVisible := true
    phaseLabelText := "Startup"
    phaseDescriptionText := "The procedure has not yet started"
    sentLog := [] }

/-- Embeds `demoState` moved to the `cranial_access` phase. -/
def demoCranial : SimState := { demoState with currentPhase := "cranial_access" }

/-- Embeds `demoState` moved to the `catheter_placement` phase. -/
def demoCatheter : SimState := { demoState with currentPhase := "catheter_placement" }

/-- A catheter insertion of 10 mm in flight (direction +z from the origin,
started at time 0), with the ventricle target 10 mm straight ahead. -/
def demoCatheterMoving : SimState :=
  { demoCatheter with
    moving := true
    catheterTimerRunning := true
    catheterStartTime := 0
    catheterTotalDistance := 10
    catheterDirection := ⟨0, 0, 1⟩
    catheterStartPosition := ⟨0, 0, 0⟩
    catheterMovementType := "insert"
    selectedVentriclePosition := some ⟨0, 0, 10⟩
    intendedPosition := ⟨0, 0, 0⟩ }

/-! ## Claim theorems -/

/-- C1: for every phase key accepted by `setPhase`, the cumulative
registered-action set afterwards equals the target phase's declared
`actions` list.  The code violates this: entering `catheter_placement`
registers `insert_catheter`/`retract_catheter`/`start_draining` while the
phase declares `insert_catheter`/`verify_placement`/`secure_catheter`, so
the registered set and the declared list disagree in both directions. -/
theorem c1_registered_set_diverges_from_declared :
    "retract_catheter" ∈
      registeredAfter (setPhase (setPhase demoState "cranial_access")
        "catheter_placement").sentLog ∧
    "retract_catheter" ∉ declaredActions "catheter_placement" ∧
    "verify_placement" ∈ declaredActions "catheter_placement" ∧
    "verify_placement" ∉
      registeredAfter (setPhase (setPhase demoState "cranial_access")
        "catheter_placement").sentLog ∧
    registeredAfter (setPhase (setPhase demoState "cranial_access")
        "catheter_placement").sentLog
      = ["insert_catheter", "retract_catheter", "start_draining"] := by
  decide

/-- C2: when a catheter-movement tick sees `elapsed · speed ≥ total`, the
operation finalizes with a force-snap to the exact target, `moving` cleared
and one context message.  The code violates the force-snap part: the tick at
time 1.05 s of a 10 mm movement at 10 mm/s snaps to (0,0,10) inside
`complete_catheter_movement` but then falls through (missing `return`) and
overwrites the tool position with the overshot (0,0,10.5). -/
theorem c2_snap_overwritten_after_completion :
    (updateCatheterMovement demoCatheterMoving (21/20)).moving = false ∧
    (updateCatheterMovement demoCatheterMoving (21/20)).sentLog
      = [OutMsg.context .catheterAtTarget false] ∧
    (updateCatheterMovement demoCatheterMoving (21/20)).toolPosition
      = ⟨0, 0, 21/2⟩ ∧
    (updateCatheterMovement demoCatheterMoving (21/20)).toolPosition
      ≠ Vec3.add demoCatheterMoving.catheterStartPosition
          (Vec3.smul demoCatheterMoving.catheterDirection
            demoCatheterMoving.catheterTotalDistance) := by
  norm_num [updateCatheterMovement, completeCatheterMovement,
    catheterCheckPosition, demoCatheterMoving, demoCatheter, demoState,
    Vec3.add, Vec3.smul, sqDist, Vec3.mk.injEq]

/-- C3: every well-formed inbound action invocation completes without an
unhandled exception and produces exactly one `action/result` under the same
id.  The code violates this when no procedure instance is loaded: the
widget's `onActionReceived` prints and then reads the never-assigned locals
`actionResult`/`message`, raising `UnboundLocalError` before any result is
sent. -/
theorem c3_no_instance_raises_unbound_local :
    widgetOnActionReceived none ⟨true, false⟩ "42" "move_to_drill_site"
        (.obj [("location", .str "bregma")]) 0
      = .error "UnboundLocalError" := by
  rfl

/-- C4: while `moving` is true, every dispatched invocation returns the
fixed busy tuple and leaves the whole instance state — in particular the
in-flight operation's start time, distance, direction and path — untouched,
reaching no phase handler. -/
theorem c4_busy_gate_rejects_without_state_change (st : SimState)
    (actionName : String) (actionParams : ActionParams) (now : ℚ)
    (h : st.moving = true) :
    simOnActionReceived st actionName actionParams now
      = (st, .ok false busyMessage) := by
  simp [simOnActionReceived, h]

theorem c4_witness :
    demoCatheterMoving.moving = true ∧
    simOnActionReceived demoCatheterMoving "insert_catheter"
        (.obj [("distance", .num 5)]) 2
      = (demoCatheterMoving, .ok false busyMessage) :=
  ⟨rfl, c4_busy_gate_rejects_without_state_change demoCatheterMoving
    "insert_catheter" (.obj [("distance", .num 5)]) 2 rfl⟩

/-- C5: the structured-parameter handlers return `(false, message)` on
invalid JSON, on valid JSON missing the required field, and on unknown
entities, never propagating an exception.  The code violates the
missing-field case: `{}` parses, and `actionParams["location"]` (resp.
`["distance"]`) raises an uncaught `KeyError` in all three handlers.  The
unknown-location case is graceful and leaves `moving` false, and invalid
JSON is caught. -/
theorem c5_missing_required_field_raises_keyerror :
    cranialMoveToDrillSite demoCranial (.obj []) 0
      = (demoCranial, .exn "KeyError") ∧
    catheterInsertCatheter demoCatheter (.obj []) 0
      = (demoCatheter, .exn "KeyError") ∧
    catheterRetractCatheter demoCatheter (.obj []) 0
      = (demoCatheter, .exn "KeyError") ∧
    cranialMoveToDrillSite demoCranial (.obj [("location", .str "foobar")]) 0
      = (demoCranial,
         .ok false "Doctor, I don't know what that drill site location is") ∧
    (cranialMoveToDrillSite demoCranial
        (.obj [("location", .str "foobar")]) 0).1.moving = false ∧
    cranialMoveToDrillSite demoCranial .malformedStr 0
      = (demoCranial,
         .ok false "Doctor, I couldn't understand the location parameters") :=
  ⟨rfl, rfl, rfl, rfl, rfl, rfl⟩

/-! Substring containment, for "message includes the action's name". -/

def listStartsWith : List Char → List Char → Bool
  | [], _ => true
  | _ :: _, [] => false
  | p :: ps, c :: cs => p == c && listStartsWith ps cs

def listHasSegment (pat : List Char) : List Char → Bool
  | [] => pat.isEmpty
  | l@(_ :: t) => listStartsWith pat l || listHasSegment pat t

/-- Embeds `pat` occurs as a contiguous substring of `s`. -/
def strContains (s pat : String) : Bool :=
  listHasSegment pat.data s.data

theorem listStartsWith_self_append (p y : List Char) :
    listStartsWith p (p ++ y) = true := by
  induction p with
  | nil => rfl
  | cons c cs ih => simp [listStartsWith, ih]

theorem listHasSegment_middle (x p y : List Char) :
    listHasSegment p (x ++ p ++ y) = true := by
  induction x with
  | nil =>
    cases hp : p with
    | nil =>
      cases y with
      | nil => rfl
      | cons c cs => simp [listHasSegment, listStartsWith]
    | cons c cs =>
      simp only [List.nil_append, List.cons_append, listHasSegment]
      have := listStartsWith_self_append (c :: cs) y
      simp only [List.cons_append] at this
      simp [this]
  | cons c cs ih =>
    simp only [List.cons_append, listHasSegment, List.append_eq]
    rw [ih, Bool.or_true]

theorem strContains_middle (a name b : String) :
    strContains (a ++ name ++ b) name = true := by
  unfold strContains
  rw [String.data_append, String.data_append]
  exact listHasSegment_middle a.data name.data b.data

/-- C6 counterexample: in the initial `"startup"` phase the dispatcher
falls through to `(False, "Error")`, whose message does not include the
offending action name `"foo"`. -/
theorem c6_counterexample :
    simOnActionReceived demoState "foo" .emptyStr 0 = (demoState, .ok false "Error") ∧
    strContains "Error" "foo" = false :=
  ⟨rfl, rfl⟩

/-- C6 amended: under `cranial_access` and `catheter_placement` an unhandled
action name yields a failure whose message names the action; under any other
phase — including the initial `"startup"` — the result is the fixed
`(False, "Error")`, which does not mention the name. -/
theorem c6_unknown_action_message (st : SimState) (actionName : String)
    (actionParams : ActionParams) (now : ℚ) (hmov : st.moving = false) :
    (st.currentPhase = "cranial_access" →
      actionName ∉ (["move_to_drill_site", "make_incision", "drill_hole"] : List String) →
      simOnActionReceived st actionName actionParams now
        = (st, .ok false ("Unknown action. " ++ actionName
            ++ " is not an available action that can be performed.")) ∧
      strContains ("Unknown action. " ++ actionName
            ++ " is not an available action that can be performed.") actionName
        = true) ∧
    (st.currentPhase = "catheter_placement" →
      actionName ∉ (["insert_catheter", "retract_catheter", "start_draining"] : List String) →
      simOnActionReceived st actionName actionParams now
        = (st, .ok false ("Unknown action. " ++ actionName
            ++ " is not an available action that can be performed.")) ∧
      strContains ("Unknown action. " ++ actionName
            ++ " is not an available action that can be performed.") actionName
        = true) ∧
    (st.currentPhase ∉ (["cranial_access", "catheter_placement"] : List String) →
      simOnActionReceived st actionName actionParams now = (st, .ok false "Error")) := by
  refine ⟨?_, ?_, ?_⟩
  · intro hph hname
    simp only [List.mem_cons, List.not_mem_nil, or_false, not_or] at hname
    obtain ⟨h1, h2, h3⟩ := hname
    refine ⟨?_, strContains_middle "Unknown action. " actionName
      " is not an available action that can be performed."⟩
    simp [simOnActionReceived, hmov, hph, h1, h2, h3]
  · intro hph hname
    simp only [List.mem_cons, List.not_mem_nil, or_false, not_or] at hname
    obtain ⟨h1, h2, h3⟩ := hname
    refine ⟨?_, strContains_middle "Unknown action. " actionName
      " is not an available action that can be performed."⟩
    simp [simOnActionReceived, hmov, hph, h1, h2, h3]
  · intro hph
    simp only [List.mem_cons, List.not_mem_nil, or_false, not_or] at hph
    obtain ⟨h1, h2⟩ := hph
    simp [simOnActionReceived, hmov, h1, h2]

theorem c6_witness :
    demoCranial.moving = false ∧
    simOnActionReceived demoCranial "foo" .emptyStr 0
      = (demoCranial, .ok false ("Unknown action. " ++ "foo"
          ++ " is not an available action that can be performed.")) :=
  ⟨rfl, ((c6_unknown_action_message demoCranial "foo" .emptyStr 0 rfl).1 rfl
    (by decide)).1⟩

/-- C7 counterexample: with the connection down, `sendContext` emits no
`messageSent` signal at all, contradicting "emits regardless of whether the
write succeeds, fails, or is skipped". -/
theorem c7_counterexample :
    (sendContext ⟨false, false⟩ "hello" false).emitted
      ≠ [("context", some (DataPayload.contextD "hello" false))] := by
  decide

/-- C7 amended: every outbound call emits `messageSent` with
`(command, data)` exactly when the socket is connected and the write raises
no exception; a skipped or failed write emits nothing (and the emissions
coincide with the successful wire writes). -/
theorem c7_message_sent_on_successful_write (ws : WSState) (m : String)
    (silent : Bool) (actionId : String) (success : Bool) (msg : String)
    (actions : List ActionSpec) (names : List String) (q : String)
    (state : Option String) (eph : Bool) (pr : String) :
    ((sendStartup ws).emitted
       = (if ws.connected && !ws.sendRaises then [("startup", none)] else [])) ∧
    ((sendContext ws m silent).emitted
       = (if ws.connected && !ws.sendRaises
          then [("context", some (.contextD m silent))] else [])) ∧
    ((sendActionResult ws actionId success msg).emitted
       = (if ws.connected && !ws.sendRaises
          then [("action/result", some (.actionResultD actionId success msg))]
          else [])) ∧
    ((wsRegisterActions ws actions).emitted
       = (if ws.connected && !ws.sendRaises
          then [("actions/register", some (.registerD actions))] else [])) ∧
    ((wsUnregisterActions ws names).emitted
       = (if ws.connected && !ws.sendRaises
          then [("actions/unregister", some (.unregisterD names))] else [])) ∧
    ((forceActions ws q names state eph pr).emitted
       = (if ws.connected && !ws.sendRaises
          then [("actions/force",
                 some (.forceD q names eph pr
                   (match state with
                    | some s => if s = "" then none else some s
                    | none => none)))]
          else [])) ∧
    ((sendStartup ws).emitted = (sendStartup ws).wireWrites) ∧
    ((sendContext ws m silent).emitted = (sendContext ws m silent).wireWrites) ∧
    ((sendActionResult ws actionId success msg).emitted
       = (sendActionResult ws actionId success msg).wireWrites) ∧
    ((wsRegisterActions ws actions).emitted
       = (wsRegisterActions ws actions).wireWrites) ∧
    ((wsUnregisterActions ws names).emitted
       = (wsUnregisterActions ws names).wireWrites) ∧
    ((forceActions ws q names state eph pr).emitted
       = (forceActions ws q names state eph pr).wireWrites) := by
  obtain ⟨c, r⟩ := ws
  cases c <;> cases r <;>
    simp [sendStartup, sendContext, sendActionResult, wsRegisterActions,
      wsUnregisterActions, forceActions, sendMessageRaw]

/-- C8: `setPhase` on an unknown key reports an error and performs no state
change at all: phase, registered actions, scene side effects, labels and
the message log are untouched. -/
theorem c8_invalid_phase_is_noop (st : SimState) (phaseKey : String)
    (h : phaseKey ∉ phaseKeys) : setPhase st phaseKey = st := by
  have hc : phaseKeys.contains phaseKey = false := by
    cases hb : phaseKeys.contains phaseKey with
    | false => rfl
    | true => exact absurd (List.elem_iff.mp hb) h
  unfold setPhase
  rw [hc]
  simp

theorem c8_witness :
    "foobar" ∉ phaseKeys ∧ setPhase demoState "foobar" = demoState :=
  ⟨by decide, c8_invalid_phase_is_noop demoState "foobar" (by decide)⟩

/-- C9: at the terminal phase (`"catheter_placement"`, last in
`phaseKeys`), advancing the phase is a no-op: the whole state — current
phase, message log (hence registered actions) and `moving` — is unchanged. -/
theorem c9_terminal_phase_advance_is_noop (st : SimState)
    (h : st.currentPhase = "catheter_placement") : onNextPhase st = st := by
  have hnext : getNextPhase st = none := by
    rw [getNextPhase, h]
    rfl
  rw [onNextPhase, hnext]

theorem c9_witness :
    demoCatheter.currentPhase = "catheter_placement" ∧
    onNextPhase demoCatheter = demoCatheter :=
  ⟨rfl, c9_terminal_phase_advance_is_noop demoCatheter rfl⟩

/-- C10: for every params object whose `distance` field converts to a
float — with no bound on its value, so zero, negatives and values beyond
the advertised 1–100 schema range included — both catheter handlers return
success and start a movement of `|distance|` mm along the direction chosen
by the movement type alone (`+z` for insert, `-z` for retract); the last
conjunct records the advertised but unenforced schema bounds. -/
theorem c10_catheter_distance_unbounded (st : SimState)
    (fields : List (String × JVal)) (v : JVal) (d : ℚ) (now : ℚ)
    (hnode : st.toolNodePresent = true)
    (hfield : lookupField fields "distance" = some v)
    (hconv : floatOfJVal v = some d) :
    (catheterInsertCatheter st (.obj fields) now
       = ({ st with
            catheterStartPosition := st.toolPosition,
            catheterDirection := st.toolZAxis,
            catheterTotalDistance := |d|,
            catheterMovementType := "insert",
            moving := true,
            catheterStartTime := now,
            catheterTimerRunning := true },
          .ok true ("Doctor, we are inserting the catheter by "
                     ++ fmt1 d ++ "mm"))) ∧
    (catheterRetractCatheter st (.obj fields) now
       = ({ st with
            catheterStartPosition := st.toolPosition,
            catheterDirection := Vec3.neg st.toolZAxis,
            catheterTotalDistance := |d|,
            catheterMovementType := "retract",
            moving := true,
            catheterStartTime := now,
            catheterTimerRunning := true },
          .ok true ("Doctor, we are retracting the catheter by "
                     ++ fmt1 d ++ "mm"))) ∧
    ((registerActionSpecs "catheter_placement").find?
        (fun a => a.name == "insert_catheter")
      = some { name := "insert_catheter", schemaMin := some 1, schemaMax := some 100 }) := by
  refine ⟨?_, ?_, by decide⟩ <;>
    simp [catheterInsertCatheter, catheterRetractCatheter,
      parseCatheterDistance, hfield, hconv, startCatheterMovement, hnode]

theorem c10_witness :
    demoCatheter.toolNodePresent = true ∧
    lookupField [("distance", JVal.num (-250))] "distance" = some (.num (-250)) ∧
    floatOfJVal (.num (-250)) = some (-250) ∧
    catheterInsertCatheter demoCatheter (.obj [("distance", .num (-250))]) 3
      = ({ demoCatheter with
           catheterStartPosition := demoCatheter.toolPosition,
           catheterDirection := demoCatheter.toolZAxis,
           catheterTotalDistance := |(-250 : ℚ)|,
           catheterMovementType := "insert",
           moving := true,
           catheterStartTime := 3,
           catheterTimerRunning := true },
         .ok true ("Doctor, we are inserting the catheter by "
                    ++ fmt1 (-250) ++ "mm")) :=
  ⟨rfl, rfl, rfl,
    (c10_catheter_distance_unbounded demoCatheter
      [("distance", JVal.num (-250))] (.num (-250)) (-250) 3 rfl rfl rfl).1⟩

end NeuroSurgery
